import Mathlib

/-!
Formal model of the smart-bracelet health-monitoring core: the Bluetooth
connectivity manager and the health-data context.

The definitions below are shallow embeddings of the TypeScript sources:

- `src/src/services/bluetooth/manager.ts` (the expo-bluetooth manager):
  byte-level characteristic parsers, `handleCharacteristicValue`, the
  connection-lifecycle operations (`startScanning`, `stopScanning`,
  `connectToDevice`, `disconnectFromDevice`), and `attemptReconnect`.
- `src/services/bluetooth/permissions.ts` (second half of the file holds the
  react-native-ble-plx manager module that the application imports as
  `@/services/bluetooth/manager`): its `disconnectFromDevice`, which differs
  from the expo copy, is embedded separately with a `plx` name.
- `src/contexts/HealthDataContext.tsx`: `checkForAlerts`, the 10-second
  alert auto-clear timers, and the 24-hour rolling-history append.

Modelling conventions: JavaScript numbers are modelled as `ℚ`; epoch
timestamps and event times are `ℤ` milliseconds; `ArrayBuffer` payloads are
`List ℕ` of bytes; a thrown JS exception inside a function body is an
`Except`/`Bool` flag; `setTimeout` scheduling is modelled by explicit delay
values or pending-deadline lists processed in event order.
-/

/-! ## DataView reads

Models of `DataView.getUint8 / getUint16(le) / getInt32(le)` on a byte
buffer. An out-of-range access throws a `RangeError`, modelled as
`Except.error ()`. Stored bytes are reduced mod 256, the identity on actual
byte values. -/

/-- Byte at index `i` of the buffer (0 when out of range; callers guard). -/
def byteAt (data : List ℕ) (i : ℕ) : ℕ := data.getD i 0 % 256

/-- Model of `DataView.getUint8(i)`. -/
def getUint8 (data : List ℕ) (i : ℕ) : Except Unit ℕ :=
  if i + 1 ≤ data.length then .ok (byteAt data i) else .error ()

/-- Model of `DataView.getUint16(i, true)` (little-endian). -/
def getUint16LE (data : List ℕ) (i : ℕ) : Except Unit ℕ :=
  if i + 2 ≤ data.length then .ok (byteAt data i + 256 * byteAt data (i + 1))
  else .error ()

/-- Model of `DataView.getInt32(i, true)` (little-endian, two's complement). -/
def getInt32LE (data : List ℕ) (i : ℕ) : Except Unit ℤ :=
  if i + 4 ≤ data.length then
    let u : ℕ := byteAt data i + 256 * byteAt data (i + 1) +
      65536 * byteAt data (i + 2) + 16777216 * byteAt data (i + 3)
    .ok (if u < 2 ^ 31 then (u : ℤ) else (u : ℤ) - 2 ^ 32)
  else .error ()

/-! ## Characteristic parsers

Embedded from `manager.ts` lines 431-467 (identical code also appears in the
ble-plx manager inside `permissions.ts` lines 761-797). -/

/-- Model of `parseHeartRate`: flag byte bit 0 selects a 16-bit little-endian
value at offset 1, otherwise an 8-bit value at offset 1. The source test
`(flags & 0x01) !== 0` is rendered as `flags % 2 = 1`. -/
def parseHeartRate (data : List ℕ) : Except Unit ℚ := do
  let flags ← getUint8 data 0
  if flags % 2 = 1 then
    let v ← getUint16LE data 1
    return (v : ℚ)
  else
    let v ← getUint8 data 1
    return (v : ℚ)

/-- Model of `parseBloodPressure`: 16-bit little-endian raw values at offsets
1 and 3, each divided by 10 (mmHg). The flag byte is read and discarded. -/
def parseBloodPressure (data : List ℕ) : Except Unit (ℚ × ℚ) := do
  let _flags ← getUint8 data 0
  let sys ← getUint16LE data 1
  let dia ← getUint16LE data 3
  return ((sys : ℚ) / 10, (dia : ℚ) / 10)

/-- Model of `parseTemperature`: 32-bit little-endian signed raw value at
offset 0 divided by 100 (degrees Celsius). -/
def parseTemperature (data : List ℕ) : Except Unit ℚ := do
  let raw ← getInt32LE data 0
  return (raw : ℚ) / 100

/-- Model of `parseOxygenSaturation`: single byte at offset 0 (percent). -/
def parseOxygenSaturation (data : List ℕ) : Except Unit ℚ := do
  let v ← getUint8 data 0
  return (v : ℚ)

/-- Model of `parseBatteryLevel`: single byte at offset 0 (percent). -/
def parseBatteryLevel (data : List ℕ) : Except Unit ℚ := do
  let v ← getUint8 data 0
  return (v : ℚ)

/-! ## Characteristic UUIDs (from `CHARACTERISTIC_UUIDS`) -/

def HEART_RATE_MEASUREMENT_UUID : String := "00002a37-0000-1000-8000-00805f9b34fb"

def BLOOD_PRESSURE_MEASUREMENT_UUID : String := "00002a35-0000-1000-8000-00805f9b34fb"

def TEMPERATURE_MEASUREMENT_UUID : String := "00002a1c-0000-1000-8000-00805f9b34fb"

def OXYGEN_SATURATION_UUID : String := "00002a5e-0000-1000-8000-00805f9b34fb"

def BATTERY_LEVEL_UUID : String := "00002a19-0000-1000-8000-00805f9b34fb"

/-! ## Health data packets -/

/-- Model of the `Partial<HealthDataPacket>` accumulated inside
`handleCharacteristicValue` before the defaulting step. -/
structure PartialHealthData where
  heartRate : Option ℚ
  bloodPressureSystolic : Option ℚ
  bloodPressureDiastolic : Option ℚ
  temperature : Option ℚ
  oxygenLevel : Option ℚ
  batteryLevel : Option ℚ
deriving Repr, DecidableEq

/-- Empty partial packet (`let healthData = {}` in the source). -/
def emptyHealthData : PartialHealthData := ⟨none, none, none, none, none, none⟩

/-- Model of `Object.keys(healthData).length > 0`. -/
def PartialHealthData.nonempty (p : PartialHealthData) : Bool :=
  p.heartRate.isSome || p.bloodPressureSystolic.isSome ||
  p.bloodPressureDiastolic.isSome || p.temperature.isSome ||
  p.oxygenLevel.isSome || p.batteryLevel.isSome

/-- Model of the emitted `HealthDataPacket`. -/
structure HealthDataPacket where
  heartRate : ℚ
  bloodPressureSystolic : ℚ
  bloodPressureDiastolic : ℚ
  temperature : ℚ
  oxygenLevel : ℚ
  batteryLevel : ℚ
  timestamp : ℤ
  deviceId : String
deriving Repr, DecidableEq

/-- Defaulting step of `handleCharacteristicValue`: each unset field becomes
0 (`healthData.x || 0`, and both branches agree on value 0), timestamp is
`new Date()`, deviceId is `this.connectedDevice?.id || ''`. -/
def buildPacket (p : PartialHealthData) (ts : ℤ) (devId : Option String) :
    HealthDataPacket :=
  ⟨p.heartRate.getD 0, p.bloodPressureSystolic.getD 0,
   p.bloodPressureDiastolic.getD 0, p.temperature.getD 0,
   p.oxygenLevel.getD 0, p.batteryLevel.getD 0, ts, devId.getD ""⟩

/-- Dispatch on `characteristic.uuid` (the `switch` in
`handleCharacteristicValue`): at most one field of the partial packet is
populated; an unknown uuid leaves it empty; a parser throw propagates. -/
def dispatchCharacteristic (uuid : String) (data : List ℕ) :
    Except Unit PartialHealthData :=
  if uuid = HEART_RATE_MEASUREMENT_UUID then
    (parseHeartRate data).map (fun hr => { emptyHealthData with heartRate := some hr })
  else if uuid = BLOOD_PRESSURE_MEASUREMENT_UUID then
    (parseBloodPressure data).map (fun bp =>
      { emptyHealthData with bloodPressureSystolic := some bp.1,
                             bloodPressureDiastolic := some bp.2 })
  else if uuid = TEMPERATURE_MEASUREMENT_UUID then
    (parseTemperature data).map (fun t => { emptyHealthData with temperature := some t })
  else if uuid = OXYGEN_SATURATION_UUID then
    (parseOxygenSaturation data).map (fun o => { emptyHealthData with oxygenLevel := some o })
  else if uuid = BATTERY_LEVEL_UUID then
    (parseBatteryLevel data).map (fun b => { emptyHealthData with batteryLevel := some b })
  else .ok emptyHealthData

/-- Try block of `handleCharacteristicValue` (manager.ts lines 381-428):
returns the packet to emit, `none` when nothing is emitted, `.error` when a
parser threw. -/
def handleCharacteristicValueBody (devId : Option String) (ts : ℤ)
    (uuid : String) (value : Option (List ℕ)) :
    Except Unit (Option HealthDataPacket) :=
  match value with
  | none => .ok none
  | some data => do
    let p ← dispatchCharacteristic uuid data
    if p.nonempty then return some (buildPacket p ts devId) else return none

/-- Full `handleCharacteristicValue` with its try/catch: the catch logs and
emits `onError` (second component `true`) and never rethrows, so the
function is total. First component is the emitted packet, if any. -/
def handleCharacteristicValue (devId : Option String) (ts : ℤ)
    (uuid : String) (value : Option (List ℕ)) :
    Option HealthDataPacket × Bool :=
  match handleCharacteristicValueBody devId ts uuid value with
  | .ok pkt => (pkt, false)
  | .error _ => (none, true)

/-! ## Health Data Context: threshold alerting
(`HealthDataContext.tsx` lines 120-144) -/

/-- Model of the `alerts` list built by `checkForAlerts`. -/
def checkForAlerts (d : HealthDataPacket) : List String :=
  (if d.heartRate < 60 ∨ d.heartRate > 100
    then ["Abnormal heart rate detected"] else []) ++
  (if d.bloodPressureSystolic > 140 ∨ d.bloodPressureDiastolic > 90
    then ["High blood pressure detected"] else []) ++
  (if d.temperature < 36.0 ∨ d.temperature > 37.5
    then ["Abnormal body temperature"] else []) ++
  (if d.oxygenLevel < 95 then ["Low oxygen saturation"] else [])

/-- Condition under which `checkForAlerts` sets the alert flag
(`alerts.length > 0`). -/
def alertTriggered (d : HealthDataPacket) : Bool :=
  !(checkForAlerts d).isEmpty

/-- Auto-clear delay of the alert flag: `setTimeout(..., 10000)`. -/
def alertClearDelayMs : ℤ := 10000

/-- State of the alert flag together with the deadlines of all pending
`setTimeout(() => setHasAlerts(false), 10000)` timers. The source never
cancels a pending timer. -/
structure AlertState where
  flag : Bool
  timers : List ℤ
deriving Repr, DecidableEq

/-- Initial context state: `hasAlerts = false`, no timers. -/
def initialAlertState : AlertState := ⟨false, []⟩

/-- Processing of one reading arriving at time `t`: timers whose deadline
has passed fire first (each sets the flag to false); then `checkForAlerts`
runs on the reading, setting the flag and scheduling a fresh 10-second
timer when a bound is violated. -/
def alertStep (s : AlertState) (t : ℤ) (d : HealthDataPacket) : AlertState :=
  let remaining := s.timers.filter (fun dl => decide (t < dl))
  let flagAfterFires := if s.timers.any (fun dl => decide (dl ≤ t)) then false else s.flag
  if alertTriggered d then
    { flag := true, timers := remaining ++ [t + alertClearDelayMs] }
  else
    { flag := flagAfterFires, timers := remaining }

/-- Folds a time-ordered trace of readings through `alertStep`. -/
def runAlertTrace (tr : List (ℤ × HealthDataPacket)) : AlertState :=
  tr.foldl (fun s p => alertStep s p.1 p.2) initialAlertState

/-- Value of the `hasAlerts` flag observed at time `q`, after every reading
in the trace has been processed and every timer with deadline at most `q`
has fired. -/
def hasAlertsAt (tr : List (ℤ × HealthDataPacket)) (q : ℤ) : Bool :=
  let s := runAlertTrace tr
  if s.timers.any (fun dl => decide (dl ≤ q)) then false else s.flag

/-! ## Health Data Context: rolling 24-hour history
(`HealthDataContext.tsx` lines 76-89) -/

/-- Model of one `HistoricalData` entry. -/
structure HistoricalData where
  timestamp : ℤ
  heartRate : ℚ
  oxygenLevel : ℚ
  temperature : ℚ
deriving Repr, DecidableEq

/-- Projection of a packet onto the fields kept in history. -/
def packetToHistorical (d : HealthDataPacket) : HistoricalData :=
  ⟨d.timestamp, d.heartRate, d.oxygenLevel, d.temperature⟩

/-- Milliseconds in 24 hours (`24 * 60 * 60 * 1000`). -/
def twentyFourHoursMs : ℤ := 24 * 60 * 60 * 1000

/-- Model of the `setHistoricalData` updater: append the new entry, then keep
only entries with `item.timestamp > Date.now() - 24h` (`now` is the time of
the append). -/
def appendHistory (prev : List HistoricalData) (d : HealthDataPacket)
    (now : ℤ) : List HistoricalData :=
  (prev ++ [packetToHistorical d]).filter
    (fun item => decide (now - twentyFourHoursMs < item.timestamp))

/-! ## Connectivity Manager state machine
(expo manager, `src/src/services/bluetooth/manager.ts`)

Each async operation is modelled as an atomic state transformer returning
the list of events it emits on the internal bus, in emission order. Faults
of the underlying transport calls are injected through `transportOk`
parameters; a `Bool` component set to `true` marks an operation that
rethrows to its caller after its catch block ran. -/

/-- Model of the `ConnectionState` union type. -/
inductive ConnectionState where
  | disconnected
  | scanning
  | connecting
  | connected
  | disconnecting
  | error
deriving Repr, DecidableEq

/-- Events emitted on the manager event bus (`BluetoothEvents`). -/
inductive ManagerEvent where
  | connectionStateChanged (c : ConnectionState)
  | deviceDiscovered (id : String)
  | deviceConnected (id : String)
  | deviceDisconnected (id : String)
  | healthDataReceived (p : HealthDataPacket)
  | errorEvent
deriving Repr, DecidableEq

/-- Mutable fields of the `BluetoothManager` singleton relevant to the
connection lifecycle. `charListener` records whether
`addCharacteristicValueChangedListener` has registered the notification
callback (the expo manager never removes it); `transportConnected` records
whether the underlying transport link is up (an environment fact: the
native layer delivers characteristic values only over a live link). -/
structure ManagerState where
  connectionState : ConnectionState
  connectedDevice : Option String
  isScanning : Bool
  scanSubscription : Bool
  charListener : Bool
  transportConnected : Bool
  reconnectAttempts : ℕ
deriving Repr, DecidableEq

/-- Fresh manager instance: `disconnected`, no device, not scanning. -/
def initialManagerState : ManagerState :=
  ⟨.disconnected, none, false, false, false, false, 0⟩

/-- Fixed reconnect cap (`maxReconnectAttempts = 3`). -/
def maxReconnectAttempts : ℕ := 3

/-- Model of `setConnectionState`: updates and emits
`onConnectionStateChanged` only when the state actually changes. -/
def setConnectionState (s : ManagerState) (c : ConnectionState) :
    ManagerState × List ManagerEvent :=
  if s.connectionState = c then (s, [])
  else ({ s with connectionState := c }, [.connectionStateChanged c])

/-- Model of `startScanning` on the permissions-granted success path: no-op
when already scanning, otherwise transition to `scanning` and install the
scan subscription. Discovery callbacks are outside the claims modelled
here. -/
def startScanning (s : ManagerState) : ManagerState × List ManagerEvent :=
  if s.isScanning then (s, [])
  else
    let r := setConnectionState s .scanning
    ({ r.1 with isScanning := true, scanSubscription := true }, r.2)

/-- Model of `stopScanning` (manager.ts lines 258-275). The scan
subscription is removed first; then `stopScanningAsync` runs: on success
`isScanning` clears and the state returns to `disconnected` only from
`scanning`; on a transport throw the catch logs, emits `onError` and does
not rethrow, leaving `isScanning` and the state untouched. -/
def stopScanning (s : ManagerState) (transportOk : Bool) :
    ManagerState × List ManagerEvent :=
  let s0 := { s with scanSubscription := false }
  if transportOk then
    let s1 := { s0 with isScanning := false }
    if s1.connectionState = .scanning then setConnectionState s1 .disconnected
    else (s1, [])
  else (s0, [.errorEvent])

/-- Model of `connectToDevice` (manager.ts lines 278-335). On transport
success: device snapshot stored, state `connected`, reconnect counter
reset, notification listener registered, `onDeviceConnected` emitted. On
failure: state `error`, `onError` emitted, exception rethrown to the
caller (final `Bool`). -/
def connectToDevice (s : ManagerState) (deviceId : String)
    (transportOk : Bool) : ManagerState × List ManagerEvent × Bool :=
  let r1 := setConnectionState s .connecting
  if transportOk then
    let s2 := { r1.1 with connectedDevice := some deviceId, transportConnected := true }
    let r2 := setConnectionState s2 .connected
    let s3 := { r2.1 with reconnectAttempts := 0, charListener := true }
    (s3, r1.2 ++ r2.2 ++ [.deviceConnected deviceId], false)
  else
    let s2 := { r1.1 with transportConnected := false }
    let r2 := setConnectionState s2 .error
    (r2.1, r1.2 ++ r2.2 ++ [.errorEvent], true)

/-- Model of the expo `disconnectFromDevice` (manager.ts lines 337-358):
no-op without a connected device; otherwise `disconnecting`, transport
teardown, device cleared, `disconnected`, then
`emit(onDeviceDisconnected, this.connectedDevice?.id || '')` — the device
field was already set to null, so the emitted identifier is the empty
string. The characteristic listener is not removed. On a transport throw:
state `error`, `onError`, rethrow. -/
def disconnectFromDevice (s : ManagerState) (transportOk : Bool) :
    ManagerState × List ManagerEvent × Bool :=
  match s.connectedDevice with
  | none => (s, [], false)
  | some _ =>
    let r1 := setConnectionState s .disconnecting
    if transportOk then
      let s2 := { r1.1 with connectedDevice := none, transportConnected := false }
      let r2 := setConnectionState s2 .disconnected
      (r2.1, r1.2 ++ r2.2 ++ [.deviceDisconnected ""], false)
    else
      let r2 := setConnectionState r1.1 .error
      (r2.1, r1.2 ++ r2.2 ++ [.errorEvent], true)

/-- Delivery of one characteristic notification. The callback registered by
`addCharacteristicValueChangedListener` runs only when it is registered and
the transport link is up (the native layer has no device to notify from
otherwise); it then runs `handleCharacteristicValue`, emitting the packet
or, from the catch block, `onError`. -/
def notification (s : ManagerState) (uuid : String) (value : Option (List ℕ))
    (now : ℤ) : ManagerState × List ManagerEvent :=
  if s.charListener && s.transportConnected then
    let r := handleCharacteristicValue s.connectedDevice now uuid value
    (s, (match r.1 with
         | some p => [ManagerEvent.healthDataReceived p]
         | none => []) ++ (if r.2 then [ManagerEvent.errorEvent] else []))
  else (s, [])

/-- Result of a chain of `attemptReconnect` calls. -/
structure ReconnectResult where
  state : ManagerState
  events : List ManagerEvent
  delays : List ℕ
  tries : ℕ
deriving Repr, DecidableEq

/-- Model of `attemptReconnect` (manager.ts lines 470-492) together with the
`setTimeout` chain it schedules. `outcomes` supplies the transport verdict
of each inner `connectToDevice` call. A call at the attempt cap settles the
state into `disconnected` and stops. Otherwise the counter increments and,
with a device present, `connectToDevice` runs: its throw is caught and a
follow-up call is scheduled after `2 ^ reconnectAttempts * 1000`
milliseconds (recorded in `delays`); nothing propagates to the caller.
`tries` counts the calls that passed the cap guard. -/
def attemptReconnect (s : ManagerState) (outcomes : List Bool) :
    ReconnectResult :=
  if maxReconnectAttempts ≤ s.reconnectAttempts then
    let r := setConnectionState s .disconnected
    ⟨r.1, r.2, [], 0⟩
  else
    let s1 := { s with reconnectAttempts := s.reconnectAttempts + 1 }
    match s1.connectedDevice with
    | none => ⟨s1, [], [], 1⟩
    | some deviceId =>
      match outcomes with
      | [] => ⟨s1, [], [], 1⟩
      | ok :: rest =>
        let rc := connectToDevice s1 deviceId ok
        if ok then ⟨rc.1, rc.2.1, [], 1⟩
        else
          let delay := 2 ^ rc.1.reconnectAttempts * 1000
          let r2 := attemptReconnect rc.1 rest
          ⟨r2.state, rc.2.1 ++ r2.events, delay :: r2.delays, 1 + r2.tries⟩

/-- External stimuli driving the manager. -/
inductive ManagerAction where
  | startScan
  | stopScan (transportOk : Bool)
  | connect (deviceId : String) (transportOk : Bool)
  | disconnect (transportOk : Bool)
  | notify (uuid : String) (value : Option (List ℕ)) (now : ℤ)
  | reconnect (outcomes : List Bool)
deriving Repr, DecidableEq

/-- One manager operation, as a labelled transition. -/
def managerStep (s : ManagerState) (a : ManagerAction) :
    ManagerState × List ManagerEvent :=
  match a with
  | .startScan => startScanning s
  | .stopScan ok => stopScanning s ok
  | .connect d ok => let r := connectToDevice s d ok; (r.1, r.2.1)
  | .disconnect ok => let r := disconnectFromDevice s ok; (r.1, r.2.1)
  | .notify u v t => notification s u v t
  | .reconnect outs => let r := attemptReconnect s outs; (r.state, r.events)

/-- States of the manager reachable from a fresh instance. -/
inductive Reachable : ManagerState → Prop where
  | init : Reachable initialManagerState
  | step (s : ManagerState) (a : ManagerAction) :
      Reachable s → Reachable (managerStep s a).1

/-! ## Disconnect of the ble-plx manager
(`src/services/bluetooth/permissions.ts` lines 644-672)

The application imports this manager as `@/services/bluetooth/manager`; its
`disconnectFromDevice` differs from the expo copy above. Low-level effects
are recorded in program order so that the required ordering (subscription
teardown before the transport close) is visible in the trace. -/

/-- Fields of the ble-plx `BluetoothManager` used by its disconnect. -/
structure PlxManagerState where
  connectionState : ConnectionState
  connectedDevice : Option String
  notificationSubscriptions : List String
deriving Repr, DecidableEq

/-- Low-level effects of the ble-plx disconnect, in program order. -/
inductive PlxEffect where
  | stateChangedEvent (c : ConnectionState)
  | subscriptionRemoved (key : String)
  | transportCancel (deviceId : String)
  | deviceDisconnectedEvent (deviceId : String)
  | errorEvent
deriving Repr, DecidableEq

/-- Model of the ble-plx `setConnectionState` (same guard as the expo one). -/
def plxSetConnectionState (s : PlxManagerState) (c : ConnectionState) :
    PlxManagerState × List PlxEffect :=
  if s.connectionState = c then (s, [])
  else ({ s with connectionState := c }, [.stateChangedEvent c])

/-- Model of the ble-plx `disconnectFromDevice`: no-op without a connected
device; otherwise `disconnecting`, removal of every notification
subscription, `cancelDeviceConnection(deviceId)` with the identifier
captured before the device field is cleared, then `disconnected` and
`emit(onDeviceDisconnected, deviceId)`. A transport throw is caught: state
`error`, `onError`, rethrow (final `Bool`). -/
def plxDisconnectFromDevice (s : PlxManagerState) (transportOk : Bool) :
    PlxManagerState × List PlxEffect × Bool :=
  match s.connectedDevice with
  | none => (s, [], false)
  | some deviceId =>
    let r1 := plxSetConnectionState s .disconnecting
    let s2 := { r1.1 with notificationSubscriptions := [] }
    let subEffects := s.notificationSubscriptions.map PlxEffect.subscriptionRemoved
    if transportOk then
      let s3 := { s2 with connectedDevice := none }
      let r2 := plxSetConnectionState s3 .disconnected
      (r2.1, r1.2 ++ subEffects ++ [.transportCancel deviceId] ++ r2.2 ++
        [.deviceDisconnectedEvent deviceId], false)
    else
      let r2 := plxSetConnectionState s2 .error
      (r2.1, r1.2 ++ subEffects ++ [.transportCancel deviceId] ++ r2.2 ++
        [.errorEvent], true)

/-! ## Auxiliary definitions used by the statements below -/

/-- Sample packet: all vitals in range except oxygen saturation (90 < 95). -/
def lowOxygenPacket : HealthDataPacket := ⟨72, 120, 80, 37, 90, 80, 0, "bracelet-1"⟩

/-- Manager state reached by a successful connect followed by
`startScanning`: the Connection State is `scanning` while the transport
link, the device snapshot and the characteristic listener are all still in
place. -/
def cexState : ManagerState :=
  (managerStep (managerStep initialManagerState
    (.connect "bracelet-1" true)).1 .startScan).1

/-- Invariant of the manager: a live transport link implies a stored
Connected Device snapshot. -/
def transportDeviceInv (s : ManagerState) : Prop :=
  s.transportConnected = true → s.connectedDevice.isSome = true

/-- Invariant of the alert-timer state relative to a trace: every pending
timer deadline stems from a violating reading of the trace, and the flag is
set only while some timer is pending. -/
def alertTimerInv (tr : List (ℤ × HealthDataPacket)) (s : AlertState) : Prop :=
  (∀ dl ∈ s.timers, ∃ p ∈ tr, alertTriggered p.2 = true ∧ dl = p.1 + alertClearDelayMs) ∧
  (s.flag = true → s.timers ≠ [])

/-! # Theorems -/

/-! ## Helper lemmas -/

/-- The alert flag is set as soon as any message is in the alerts list. -/
theorem alertTriggered_of_mem (d : HealthDataPacket) (m : String)
    (h : m ∈ checkForAlerts d) : alertTriggered d = true := by
  have hne : checkForAlerts d ≠ [] := List.ne_nil_of_mem h
  simp [alertTriggered, List.isEmpty_iff, hne]

/-! ## C3: heart-rate parsing examples -/

/-- Claim C3: `parseHeartRate` on `[0x01, 0x48, 0x00]` (16-bit flag set)
returns 72 read as a 16-bit little-endian value, and on `[0x00, 0x48]`
(flag clear) returns 72 read as an 8-bit value. -/
theorem C3_parseHeartRate_examples :
    parseHeartRate [0x01, 0x48, 0x00] = .ok 72 ∧
    parseHeartRate [0x00, 0x48] = .ok 72 :=
  ⟨rfl, rfl⟩

/-! ## C4: blood-pressure and temperature parsing -/

/-- Claim C4: `parseBloodPressure` on a payload carrying systolic raw 1200
and diastolic raw 800 as 16-bit little-endian values at offsets 1 and 3
returns 120.0 / 80.0 mmHg (raw divided by 10), and `parseTemperature`
returns the 32-bit little-endian raw value divided by 100 as degrees
Celsius. -/
theorem C4_parse_scaling :
    parseBloodPressure [0x00, 0xB0, 0x04, 0x20, 0x03] = .ok (120, 80) ∧
    (∀ data raw, getInt32LE data 0 = .ok raw →
      parseTemperature data = .ok ((raw : ℚ) / 100)) := by
  constructor
  · have h : parseBloodPressure [0x00, 0xB0, 0x04, 0x20, 0x03] =
        .ok ((1200 : ℚ) / 10, (800 : ℚ) / 10) := rfl
    rw [h]; norm_num
  · intro data raw h
    simp [parseTemperature, h, Except.bind, bind, pure, Except.pure]

/-- Witness for C4: a concrete 4-byte payload encoding raw 3660, parsed to
3660 / 100 degrees Celsius. -/
theorem C4_witness :
    getInt32LE [0x4C, 0x0E, 0x00, 0x00] 0 = .ok 3660 ∧
    parseTemperature [0x4C, 0x0E, 0x00, 0x00] = .ok ((3660 : ℚ) / 100) :=
  ⟨rfl, C4_parse_scaling.2 [0x4C, 0x0E, 0x00, 0x00] 3660 rfl⟩

/-! ## C9: malformed payloads are swallowed -/

/-- Claim C9: when a characteristic notification carries a payload on which
the dispatched parser throws, `handleCharacteristicValue` catches the
failure (the catch logs and emits `onError`, modelled by the `true` flag),
emits no packet at all — so no vitals field is ever populated from the
malformed payload — and propagates no exception (the function returns
normally). -/
theorem C9_malformed_payload_swallowed (devId : Option String) (ts : ℤ)
    (uuid : String) (data : List ℕ)
    (hmal : dispatchCharacteristic uuid data = .error ()) :
    handleCharacteristicValue devId ts uuid (some data) = (none, true) := by
  simp [handleCharacteristicValue, handleCharacteristicValueBody, hmal,
    Except.bind, bind]

/-- Witness for C9: the empty heart-rate payload makes the parser throw and
the handler returns `(none, true)`. -/
theorem C9_witness :
    dispatchCharacteristic HEART_RATE_MEASUREMENT_UUID [] = .error () ∧
    handleCharacteristicValue none 0 HEART_RATE_MEASUREMENT_UUID (some []) =
      (none, true) :=
  ⟨rfl, C9_malformed_payload_swallowed none 0 HEART_RATE_MEASUREMENT_UUID [] rfl⟩

/-! ## C10: the zero-as-unknown sentinel always triggers an alert -/

/-- Claim C10: every packet emitted by `handleCharacteristicValue` whose
partial data is missing at least one of the heart-rate, temperature or
oxygen-saturation fields sets the Health Data Context alert flag, because
the missing field defaults to zero and zero violates the corresponding
clinical bound (0 < 60 bpm, 0 < 36.0 °C, 0 < 95 %). -/
theorem C10_zero_sentinel_triggers_alert (uuid : String) (data : List ℕ)
    (devId : Option String) (ts : ℤ) (pp : PartialHealthData)
    (p : HealthDataPacket)
    (hdisp : dispatchCharacteristic uuid data = .ok pp)
    (hemit : (handleCharacteristicValue devId ts uuid (some data)).1 = some p)
    (hmiss : pp.heartRate = none ∨ pp.temperature = none ∨ pp.oxygenLevel = none) :
    alertTriggered p = true := by
  have hp : p = buildPacket pp ts devId := by
    by_cases hnp : pp.nonempty = true
    · simp [handleCharacteristicValue, handleCharacteristicValueBody, hdisp,
        Except.bind, bind, pure, Except.pure, hnp] at hemit
      exact hemit.symm
    · simp [handleCharacteristicValue, handleCharacteristicValueBody, hdisp,
        Except.bind, bind, pure, Except.pure, hnp] at hemit
  subst hp
  rcases hmiss with h | h | h
  · refine alertTriggered_of_mem _ "Abnormal heart rate detected" ?_
    have hc : ((0 : ℚ) < 60 ∨ (0 : ℚ) > 100) := by norm_num
    simp [checkForAlerts, buildPacket, h, hc]
  · refine alertTriggered_of_mem _ "Abnormal body temperature" ?_
    have hc : ((0 : ℚ) < 36.0 ∨ (0 : ℚ) > 37.5) := by norm_num
    simp [checkForAlerts, buildPacket, h, hc]
  · refine alertTriggered_of_mem _ "Low oxygen saturation" ?_
    have hc : ((0 : ℚ) < 95) := by norm_num
    simp [checkForAlerts, buildPacket, h, hc]

/-- Witness for C10: a temperature-only notification with an in-range
temperature of 36.60 °C still triggers the alert flag, because the absent
heart-rate field defaults to zero. -/
theorem C10_witness :
    alertTriggered (buildPacket ⟨none, none, none, some ((3660 : ℚ) / 100),
      none, none⟩ 0 (some "bracelet-1")) = true :=
  C10_zero_sentinel_triggers_alert TEMPERATURE_MEASUREMENT_UUID
    [0x4C, 0x0E, 0x00, 0x00] (some "bracelet-1") 0
    ⟨none, none, none, some ((3660 : ℚ) / 100), none, none⟩
    (buildPacket ⟨none, none, none, some ((3660 : ℚ) / 100), none, none⟩ 0
      (some "bracelet-1"))
    rfl rfl (Or.inl rfl)

/-! ## C6: rolling 24-hour history -/

/-- Claim C6: after every append, the retained history holds exactly the
entries of the previous history plus the projected new reading whose
timestamps lie within the trailing 24 hours of the append time — older
entries are pruned on every append and no count-based cap exists. -/
theorem C6_history_window (prev : List HistoricalData) (d : HealthDataPacket)
    (now : ℤ) (item : HistoricalData) :
    item ∈ appendHistory prev d now ↔
      ((item ∈ prev ∨ item = packetToHistorical d) ∧
        now - twentyFourHoursMs < item.timestamp) := by
  simp [appendHistory, List.mem_filter, List.mem_append]
  tauto

/-! ## C5: alert-flag timer semantics -/

/-- Preservation of the alert-timer invariant by a single reading. -/
theorem alertStep_inv (tr : List (ℤ × HealthDataPacket)) (s : AlertState)
    (t : ℤ) (d : HealthDataPacket) (hmem : (t, d) ∈ tr)
    (hinv : alertTimerInv tr s) : alertTimerInv tr (alertStep s t d) := by
  obtain ⟨hT, hF⟩ := hinv
  by_cases hv : alertTriggered d = true
  · refine ⟨?_, ?_⟩
    · intro dl hdl
      simp only [alertStep, hv, if_true] at hdl
      rcases List.mem_append.mp hdl with hdl | hdl
      · exact hT dl (List.mem_of_mem_filter hdl)
      · refine ⟨(t, d), hmem, hv, ?_⟩
        simpa using hdl
    · intro _
      simp [alertStep, hv]
  · have hv2 : alertTriggered d = false := by simpa using hv
    refine ⟨?_, ?_⟩
    · intro dl hdl
      simp only [alertStep, hv2, Bool.false_eq_true, if_false] at hdl
      exact hT dl (List.mem_of_mem_filter hdl)
    · intro hflag
      simp only [alertStep, hv2, Bool.false_eq_true, if_false] at hflag ⊢
      by_cases ha : s.timers.any (fun dl => decide (dl ≤ t)) = true
      · rw [if_pos ha] at hflag
        exact absurd hflag (by simp)
      · have ha2 : s.timers.any (fun dl => decide (dl ≤ t)) = false := by
          simpa using ha
        rw [if_neg (by simp [ha2])] at hflag
        have hne := hF hflag
        obtain ⟨x, hx⟩ := List.exists_mem_of_ne_nil _ hne
        have hxlt : t < x := by
          have := List.any_eq_false.mp ha2 x hx
          simpa using this
        have hxmem : x ∈ s.timers.filter (fun dl => decide (t < dl)) :=
          List.mem_filter.mpr ⟨hx, by simpa using hxlt⟩
        exact List.ne_nil_of_mem hxmem

/-- Preservation of the alert-timer invariant along a trace. -/
theorem alertTimerInv_foldl (tr : List (ℤ × HealthDataPacket)) :
    ∀ (l : List (ℤ × HealthDataPacket)) (s : AlertState),
      (∀ p ∈ l, p ∈ tr) → alertTimerInv tr s →
      alertTimerInv tr (l.foldl (fun s p => alertStep s p.1 p.2) s) := by
  intro l
  induction l with
  | nil => intro s _ h; exact h
  | cons hd tl ih =>
    intro s hsub hinv
    simp only [List.foldl_cons]
    refine ih _ (fun p hp => hsub p (List.mem_cons_of_mem _ hp)) ?_
    exact alertStep_inv tr s hd.1 hd.2 (by simpa using hsub hd (List.mem_cons_self _ _)) hinv

/-- Counterexample to claim C5 as stated: with violating readings at
t = 0 s and t = 5 s, the claim predicts the flag is still set at t = 12 s
(10 seconds after the last reading have not elapsed), but the pending timer
of the first reading fires at t = 10 s and clears the flag — the timers are
never cancelled, so there is no re-arming. -/
theorem C5_counterexample :
    alertTriggered lowOxygenPacket = true ∧
    (12000 : ℤ) < 5000 + alertClearDelayMs ∧
    hasAlertsAt [(0, lowOxygenPacket), (5000, lowOxygenPacket)] 12000 = false := by
  refine ⟨?_, by norm_num [alertClearDelayMs], ?_⟩
  · norm_num [alertTriggered, checkForAlerts, lowOxygenPacket]
  · norm_num [hasAlertsAt, runAlertTrace, initialAlertState, alertStep,
      alertTriggered, checkForAlerts, lowOxygenPacket, alertClearDelayMs,
      List.foldl, List.filter, List.any]

/-- Claim C5, amended: a reading violating a clinical bound sets the alert
flag immediately; the flag is clear once 10 seconds have elapsed after
every violating reading; and a non-violating reading alone never sets it.
Because pending 10-second timers are not cancelled when the flag is re-set,
the flag can clear earlier than 10 seconds after the last violating
reading (see the counterexample), so the flag clears no later than — but
not exactly at — 10 seconds after the last violating reading. -/
theorem C5_alert_flash_semantics (tr : List (ℤ × HealthDataPacket))
    (t q : ℤ) (d : HealthDataPacket) :
    (alertTriggered d = true → hasAlertsAt (tr ++ [(t, d)]) t = true) ∧
    ((∀ p ∈ tr, alertTriggered p.2 = true → p.1 + alertClearDelayMs ≤ q) →
      hasAlertsAt tr q = false) ∧
    (alertTriggered d = false → hasAlertsAt [(t, d)] q = false) := by
  refine ⟨?_, ?_, ?_⟩
  · intro hv
    unfold hasAlertsAt runAlertTrace
    rw [List.foldl_append]
    simp only [List.foldl_cons, List.foldl_nil]
    have hany : ((((List.foldl (fun s p => alertStep s p.1 p.2) initialAlertState tr).timers.filter
        (fun dl => decide (t < dl))) ++ [t + alertClearDelayMs]).any
        (fun dl => decide (dl ≤ t))) = false := by
      rw [List.any_eq_false]
      intro x hx
      rcases List.mem_append.mp hx with hx | hx
      · have := (List.mem_filter.mp hx).2
        simp at this ⊢
        omega
      · simp at hx
        subst hx
        simp [alertClearDelayMs]
    simp [alertStep, hv, hany]
    norm_num [alertClearDelayMs]
  · intro hq
    unfold hasAlertsAt
    have hinv : alertTimerInv tr (runAlertTrace tr) := by
      unfold runAlertTrace
      exact alertTimerInv_foldl tr tr _ (fun p hp => hp)
        ⟨by simp [initialAlertState], by simp [initialAlertState]⟩
    by_cases ha : (runAlertTrace tr).timers.any (fun dl => decide (dl ≤ q)) = true
    · simp [ha]
    · have ha2 : (runAlertTrace tr).timers.any (fun dl => decide (dl ≤ q)) = false := by
        simpa using ha
      rw [if_neg (by simp [ha2])]
      by_contra hflag
      have hflag2 : (runAlertTrace tr).flag = true := by simpa using hflag
      have hne := hinv.2 hflag2
      obtain ⟨x, hx⟩ := List.exists_mem_of_ne_nil _ hne
      obtain ⟨p, hp, hpv, hpx⟩ := hinv.1 x hx
      have hxq : x ≤ q := by
        rw [hpx]
        exact hq p hp hpv
      have := List.any_eq_false.mp ha2 x hx
      simp at this
      omega
  · intro hv
    simp [hasAlertsAt, runAlertTrace, initialAlertState, alertStep, hv]

/-- Witness for C5 (amended): a single low-oxygen reading at t = 0 sets the
flag at t = 0 and the flag is clear at t = 10 s. -/
theorem C5_witness :
    hasAlertsAt ([] ++ [((0 : ℤ), lowOxygenPacket)]) 0 = true ∧
    hasAlertsAt [((0 : ℤ), lowOxygenPacket)] alertClearDelayMs = false := by
  constructor
  · exact (C5_alert_flash_semantics [] 0 0 lowOxygenPacket).1
      (by norm_num [alertTriggered, checkForAlerts, lowOxygenPacket])
  · refine (C5_alert_flash_semantics [((0 : ℤ), lowOxygenPacket)] 0
      alertClearDelayMs lowOxygenPacket).2.1 ?_
    intro p hp _
    simp at hp
    subst hp
    simp

/-! ## C8: stopScanning is idempotent and frame-preserving -/

/-- Claim C8: `stopScanning` never throws (the transport-failure path
returns normally with an `onError` event); on the success path it moves the
Connection State to `disconnected` exactly when the prior state was
`scanning` and leaves every other state unchanged; a second call after a
first one — equivalently, a call after the scan timeout already fired the
first one — changes nothing and emits nothing, leaving the state
`disconnected` when the scan was the prior state; the device snapshot,
transport flag, listener and reconnect counter are untouched. -/
theorem C8_stopScanning_idempotent :
    (∀ s : ManagerState, (stopScanning s true).1.connectionState =
      if s.connectionState = .scanning then .disconnected
      else s.connectionState) ∧
    (∀ s : ManagerState,
      stopScanning (stopScanning s true).1 true = ((stopScanning s true).1, [])) ∧
    (∀ s : ManagerState,
      (stopScanning s true).1.connectedDevice = s.connectedDevice ∧
      (stopScanning s true).1.transportConnected = s.transportConnected ∧
      (stopScanning s true).1.charListener = s.charListener ∧
      (stopScanning s true).1.reconnectAttempts = s.reconnectAttempts) ∧
    (∀ s : ManagerState,
      stopScanning s false = ({ s with scanSubscription := false }, [.errorEvent])) := by
  refine ⟨?_, ?_, ?_, ?_⟩
  · intro s
    obtain ⟨cs, cd, isc, sub, lis, trc, ra⟩ := s
    by_cases h : cs = .scanning <;>
      simp [stopScanning, setConnectionState, h]
  · intro s
    obtain ⟨cs, cd, isc, sub, lis, trc, ra⟩ := s
    by_cases h : cs = .scanning <;>
      simp [stopScanning, setConnectionState, h]
  · intro s
    obtain ⟨cs, cd, isc, sub, lis, trc, ra⟩ := s
    by_cases h : cs = .scanning <;>
      simp [stopScanning, setConnectionState, h]
  · intro s
    rfl

/-! ## C2: bounded exponential-backoff reconnect policy -/

/-- Fields other than the Connection State are untouched by
`setConnectionState`. -/
theorem setConnectionState_fields (s : ManagerState) (c : ConnectionState) :
    (setConnectionState s c).1.connectedDevice = s.connectedDevice ∧
    (setConnectionState s c).1.transportConnected = s.transportConnected ∧
    (setConnectionState s c).1.charListener = s.charListener ∧
    (setConnectionState s c).1.reconnectAttempts = s.reconnectAttempts ∧
    (setConnectionState s c).1.isScanning = s.isScanning ∧
    (setConnectionState s c).1.scanSubscription = s.scanSubscription := by
  simp only [setConnectionState]
  split_ifs <;> simp

/-- Failed connect attempts leave the reconnect counter unchanged. -/
theorem connectToDevice_fail_attempts (s : ManagerState) (d : String) :
    (connectToDevice s d false).1.reconnectAttempts = s.reconnectAttempts := by
  simp only [connectToDevice]
  simp only [Bool.false_eq_true, if_false]
  have h1 := (setConnectionState_fields s .connecting).2.2.2.1
  have h2 := (setConnectionState_fields
    { (setConnectionState s .connecting).1 with transportConnected := false } .error).2.2.2.1
  simp at h2 ⊢
  rw [h2]
  exact h1

/-- The reconnect loop makes at most `maxReconnectAttempts` minus the
current counter value further attempts, whatever the transport does. -/
theorem attemptReconnect_tries_le (outcomes : List Bool) :
    ∀ s : ManagerState, (attemptReconnect s outcomes).tries ≤
      maxReconnectAttempts - s.reconnectAttempts := by
  induction outcomes with
  | nil =>
    intro s
    unfold attemptReconnect
    by_cases h : maxReconnectAttempts ≤ s.reconnectAttempts
    · simp [h]
    · simp only [h, if_false]
      cases hcd : s.connectedDevice <;>
        simp [maxReconnectAttempts] at h ⊢ <;> omega
  | cons o rest ih =>
    intro s
    obtain ⟨cs, cd, isc, sub, lis, trc, ra⟩ := s
    unfold attemptReconnect
    by_cases h : maxReconnectAttempts ≤ ra
    · simp [h]
    · simp only [h, if_false]
      cases hcd : cd with
      | none => simp [maxReconnectAttempts] at h ⊢; omega
      | some d =>
        cases o with
        | true => simp [maxReconnectAttempts] at h ⊢; omega
        | false =>
          simp only [Bool.false_eq_true, if_false]
          have hr := ih (connectToDevice ⟨cs, some d, isc, sub, lis, trc, ra + 1⟩ d false).1
          have ha := connectToDevice_fail_attempts
            ⟨cs, some d, isc, sub, lis, trc, ra + 1⟩ d
          simp only [ha] at hr
          simp [maxReconnectAttempts] at h hr ⊢
          omega

/-- Claim C2: with a connected device and a transport that keeps failing,
the reconnect loop performs exactly 3 attempts, schedules backoff delays of
2, 4 and 8 seconds (2 ^ attemptNumber), and the final call settles the
Connection State into `disconnected` — not `error` — without anything
propagating to a caller (every inner connect throw is caught); in general
the loop never makes more than `maxReconnectAttempts = 3` attempts from a
reset counter. -/
theorem C2_reconnect_policy :
    ((attemptReconnect (connectToDevice initialManagerState "bracelet-1" true).1
        [false, false, false]).delays = [2000, 4000, 8000] ∧
      (attemptReconnect (connectToDevice initialManagerState "bracelet-1" true).1
        [false, false, false]).tries = 3 ∧
      (attemptReconnect (connectToDevice initialManagerState "bracelet-1" true).1
        [false, false, false]).state.connectionState = .disconnected ∧
      (attemptReconnect (connectToDevice initialManagerState "bracelet-1" true).1
        [false, false, false]).state.reconnectAttempts = 3) ∧
    (∀ (s : ManagerState) (outcomes : List Bool), s.reconnectAttempts = 0 →
      (attemptReconnect s outcomes).tries ≤ maxReconnectAttempts) := by
  constructor
  · exact ⟨by decide, by decide, by decide, by decide⟩
  · intro s outcomes h
    have hb := attemptReconnect_tries_le outcomes s
    rw [h] at hb
    simpa using hb

/-- Witness for C2: the bound applied to a fresh manager state. -/
theorem C2_witness :
    initialManagerState.reconnectAttempts = 0 ∧
    (attemptReconnect initialManagerState []).tries ≤ maxReconnectAttempts :=
  ⟨rfl, C2_reconnect_policy.2 initialManagerState [] rfl⟩

/-! ## C7: disconnectFromDevice of the application manager -/

/-- Claim C7: `disconnectFromDevice` is a no-op when no device is connected;
otherwise it removes every characteristic subscription before the transport
connection is cancelled (visible in the effect order), clears the Connected
Device, transitions the Connection State to `disconnected`, and emits a
disconnected event carrying the identifier of the device that was
disconnected. Stated for the ble-plx manager that the application imports;
the legacy expo copy under `src/src` differs (see its embedding above). -/
theorem C7_disconnectFromDevice (s : PlxManagerState) (d : String) :
    (s.connectedDevice = none →
      ∀ transportOk, plxDisconnectFromDevice s transportOk = (s, [], false)) ∧
    (s.connectedDevice = some d → s.connectionState = .connected →
      plxDisconnectFromDevice s true =
        (⟨.disconnected, none, []⟩,
         [PlxEffect.stateChangedEvent .disconnecting] ++
           s.notificationSubscriptions.map PlxEffect.subscriptionRemoved ++
           [PlxEffect.transportCancel d, PlxEffect.stateChangedEvent .disconnected,
            PlxEffect.deviceDisconnectedEvent d],
         false)) := by
  obtain ⟨cs, cd, subs⟩ := s
  constructor
  · intro hcd transportOk
    simp at hcd
    subst hcd
    rfl
  · intro hcd hcs
    simp at hcd hcs
    subst hcd
    subst hcs
    simp [plxDisconnectFromDevice, plxSetConnectionState]

/-- Witness for C7: disconnecting a connected state with one heart-rate
subscription produces exactly the documented effect sequence. -/
theorem C7_witness :
    plxDisconnectFromDevice ⟨.connected, some "bracelet-1", ["heart_rate"]⟩ true =
      (⟨.disconnected, none, []⟩,
       [PlxEffect.stateChangedEvent .disconnecting,
        PlxEffect.subscriptionRemoved "heart_rate",
        PlxEffect.transportCancel "bracelet-1",
        PlxEffect.stateChangedEvent .disconnected,
        PlxEffect.deviceDisconnectedEvent "bracelet-1"],
       false) := by
  have h := (C7_disconnectFromDevice
    ⟨.connected, some "bracelet-1", ["heart_rate"]⟩ "bracelet-1").2 rfl rfl
  simpa using h

/-! ## C1: states in which vitals packets can be emitted -/

/-- Events of `setConnectionState` are state-change events only. -/
theorem setConnectionState_events (s : ManagerState) (c : ConnectionState) :
    (setConnectionState s c).2 = [] ∨
    (setConnectionState s c).2 = [ManagerEvent.connectionStateChanged c] := by
  unfold setConnectionState
  split_ifs <;> simp

/-- A connect attempt never emits a vitals packet. -/
theorem healthData_not_in_connect (s : ManagerState) (d : String) (ok : Bool)
    (p : HealthDataPacket) :
    ManagerEvent.healthDataReceived p ∉ (connectToDevice s d ok).2.1 := by
  intro hmem
  cases ok
  · simp only [connectToDevice, Bool.false_eq_true, if_false] at hmem
    rcases setConnectionState_events s .connecting with h1 | h1 <;>
      rcases setConnectionState_events
        { (setConnectionState s .connecting).1 with transportConnected := false }
        .error with h2 | h2 <;>
      simp [h1, h2] at hmem
  · simp only [connectToDevice, if_true] at hmem
    rcases setConnectionState_events s .connecting with h1 | h1 <;>
      rcases setConnectionState_events
        { (setConnectionState s .connecting).1 with
            connectedDevice := some d, transportConnected := true }
        .connected with h2 | h2 <;>
      simp [h1, h2] at hmem

/-- A disconnect never emits a vitals packet. -/
theorem healthData_not_in_disconnect (s : ManagerState) (ok : Bool)
    (p : HealthDataPacket) :
    ManagerEvent.healthDataReceived p ∉ (disconnectFromDevice s ok).2.1 := by
  intro hmem
  unfold disconnectFromDevice at hmem
  cases hcd : s.connectedDevice with
  | none => simp [hcd] at hmem
  | some d =>
    simp only [hcd] at hmem
    cases ok
    · simp only [Bool.false_eq_true, if_false] at hmem
      rcases setConnectionState_events s .disconnecting with h1 | h1 <;>
        rcases setConnectionState_events (setConnectionState s .disconnecting).1
          .error with h2 | h2 <;>
        simp [h1, h2] at hmem
    · simp only [if_true] at hmem
      rcases setConnectionState_events s .disconnecting with h1 | h1 <;>
        rcases setConnectionState_events
          { (setConnectionState s .disconnecting).1 with
              connectedDevice := none, transportConnected := false }
          .disconnected with h2 | h2 <;>
        simp [h1, h2] at hmem

/-- The scan operations never emit a vitals packet. -/
theorem healthData_not_in_scan_ops (s : ManagerState) (ok : Bool)
    (p : HealthDataPacket) :
    ManagerEvent.healthDataReceived p ∉ (startScanning s).2 ∧
    ManagerEvent.healthDataReceived p ∉ (stopScanning s ok).2 := by
  obtain ⟨cs, cd, isc, sub, lis, trc, ra⟩ := s
  constructor
  · intro hmem
    cases isc
    · by_cases h : cs = ConnectionState.scanning <;>
        simp [startScanning, setConnectionState, h] at hmem
    · simp [startScanning] at hmem
  · intro hmem
    cases ok
    · simp [stopScanning] at hmem
    · by_cases h : cs = ConnectionState.scanning <;>
        simp [stopScanning, setConnectionState, h] at hmem

/-- The reconnect loop never emits a vitals packet. -/
theorem healthData_not_in_reconnect (outcomes : List Bool) :
    ∀ (s : ManagerState) (p : HealthDataPacket),
      ManagerEvent.healthDataReceived p ∉ (attemptReconnect s outcomes).events := by
  induction outcomes with
  | nil =>
    intro s p hmem
    unfold attemptReconnect at hmem
    by_cases h : maxReconnectAttempts ≤ s.reconnectAttempts
    · rw [if_pos h] at hmem
      rcases setConnectionState_events s .disconnected with h1 | h1 <;>
        simp [h1] at hmem
    · rw [if_neg h] at hmem
      cases hcd : s.connectedDevice <;> simp [hcd] at hmem
  | cons o rest ih =>
    intro s p hmem
    obtain ⟨cs, cd, isc, sub, lis, trc, ra⟩ := s
    unfold attemptReconnect at hmem
    by_cases h : maxReconnectAttempts ≤ ra
    · rw [if_pos h] at hmem
      rcases setConnectionState_events ⟨cs, cd, isc, sub, lis, trc, ra⟩
        .disconnected with h1 | h1 <;> simp [h1] at hmem
    · rw [if_neg h] at hmem
      cases hcd : cd with
      | none => simp [hcd] at hmem
      | some d =>
        simp only [hcd] at hmem
        cases o
        · simp only [Bool.false_eq_true, if_false] at hmem
          rcases List.mem_append.mp hmem with h2 | h2
          · exact healthData_not_in_connect
              ⟨cs, some d, isc, sub, lis, trc, ra + 1⟩ d false p h2
          · exact ih _ p h2
        · simp only [if_true] at hmem
          exact healthData_not_in_connect
            ⟨cs, some d, isc, sub, lis, trc, ra + 1⟩ d true p hmem

/-- Transport and device fields after a failed connect. -/
theorem connectToDevice_fail_fields (s : ManagerState) (d : String) :
    (connectToDevice s d false).1.transportConnected = false := by
  obtain ⟨cs, cd, isc, sub, lis, trc, ra⟩ := s
  simp [connectToDevice, setConnectionState]
  split_ifs <;> simp

/-- Transport and device fields after a successful connect. -/
theorem connectToDevice_ok_fields (s : ManagerState) (d : String) :
    (connectToDevice s d true).1.transportConnected = true ∧
    (connectToDevice s d true).1.connectedDevice = some d := by
  obtain ⟨cs, cd, isc, sub, lis, trc, ra⟩ := s
  simp [connectToDevice, setConnectionState]
  split_ifs <;> simp

/-- Connect attempts preserve the transport-device invariant. -/
theorem transportDeviceInv_connect (s : ManagerState) (d : String) (ok : Bool)
    (_h : transportDeviceInv s) :
    transportDeviceInv (connectToDevice s d ok).1 := by
  cases ok
  · intro htc
    rw [connectToDevice_fail_fields s d] at htc
    exact absurd htc (by simp)
  · intro _
    rw [(connectToDevice_ok_fields s d).2]
    rfl

/-- Scan start preserves the transport-device invariant. -/
theorem transportDeviceInv_startScan (s : ManagerState)
    (h : transportDeviceInv s) : transportDeviceInv (startScanning s).1 := by
  obtain ⟨cs, cd, isc, sub, lis, trc, ra⟩ := s
  cases isc
  · by_cases hcs : cs = ConnectionState.scanning <;>
      simpa [transportDeviceInv, startScanning, setConnectionState, hcs] using h
  · simpa [transportDeviceInv, startScanning] using h

/-- Scan stop preserves the transport-device invariant. -/
theorem transportDeviceInv_stopScan (s : ManagerState) (ok : Bool)
    (h : transportDeviceInv s) : transportDeviceInv (stopScanning s ok).1 := by
  obtain ⟨cs, cd, isc, sub, lis, trc, ra⟩ := s
  cases ok
  · simpa [transportDeviceInv, stopScanning] using h
  · by_cases hcs : cs = ConnectionState.scanning <;>
      simpa [transportDeviceInv, stopScanning, setConnectionState, hcs] using h

/-- Disconnect preserves the transport-device invariant. -/
theorem transportDeviceInv_disconnect (s : ManagerState) (ok : Bool)
    (h : transportDeviceInv s) :
    transportDeviceInv (disconnectFromDevice s ok).1 := by
  obtain ⟨cs, cd, isc, sub, lis, trc, ra⟩ := s
  cases cd with
  | none => simpa [transportDeviceInv, disconnectFromDevice] using h
  | some d =>
    cases ok
    · by_cases h1 : cs = ConnectionState.disconnecting <;>
        simp [transportDeviceInv, disconnectFromDevice, setConnectionState, h1]
    · by_cases h1 : cs = ConnectionState.disconnecting <;>
        simp [transportDeviceInv, disconnectFromDevice, setConnectionState, h1]

/-- Notification delivery preserves the transport-device invariant. -/
theorem transportDeviceInv_notify (s : ManagerState) (u : String)
    (v : Option (List ℕ)) (t : ℤ) (h : transportDeviceInv s) :
    transportDeviceInv (notification s u v t).1 := by
  unfold notification
  by_cases hg : (s.charListener && s.transportConnected) = true <;>
    simp only [hg, Bool.false_eq_true, if_true, if_false] <;> exact h

/-- The reconnect loop preserves the transport-device invariant. -/
theorem transportDeviceInv_reconnect (outcomes : List Bool) :
    ∀ s : ManagerState, transportDeviceInv s →
      transportDeviceInv (attemptReconnect s outcomes).state := by
  induction outcomes with
  | nil =>
    intro s h
    obtain ⟨cs, cd, isc, sub, lis, trc, ra⟩ := s
    unfold attemptReconnect
    by_cases hc : maxReconnectAttempts ≤ ra
    · rw [if_pos hc]
      by_cases h1 : cs = ConnectionState.disconnected <;>
        simpa [transportDeviceInv, setConnectionState, h1] using h
    · rw [if_neg hc]
      cases cd with
      | none => simpa [transportDeviceInv] using h
      | some d => simp [transportDeviceInv]
  | cons o rest ih =>
    intro s h
    obtain ⟨cs, cd, isc, sub, lis, trc, ra⟩ := s
    unfold attemptReconnect
    by_cases hc : maxReconnectAttempts ≤ ra
    · rw [if_pos hc]
      by_cases h1 : cs = ConnectionState.disconnected <;>
        simpa [transportDeviceInv, setConnectionState, h1] using h
    · rw [if_neg hc]
      cases cd with
      | none => simpa [transportDeviceInv] using h
      | some d =>
        simp only
        cases o
        · simp only [Bool.false_eq_true, if_false]
          refine ih _ ?_
          refine transportDeviceInv_connect
            ⟨cs, some d, isc, sub, lis, trc, ra + 1⟩ d false ?_
          simp [transportDeviceInv]
        · simp only [if_true]
          refine transportDeviceInv_connect
            ⟨cs, some d, isc, sub, lis, trc, ra + 1⟩ d true ?_
          simp [transportDeviceInv]

/-- Every reachable manager state satisfies the transport-device
invariant. -/
theorem reachable_transportDeviceInv (s : ManagerState) (hs : Reachable s) :
    transportDeviceInv s := by
  induction hs with
  | init => intro htc; simp [initialManagerState] at htc
  | step s0 a _ ih =>
    cases a with
    | startScan => exact transportDeviceInv_startScan s0 ih
    | stopScan ok => exact transportDeviceInv_stopScan s0 ok ih
    | connect d ok => exact transportDeviceInv_connect s0 d ok ih
    | disconnect ok => exact transportDeviceInv_disconnect s0 ok ih
    | notify u v t => exact transportDeviceInv_notify s0 u v t ih
    | reconnect outs => exact transportDeviceInv_reconnect outs s0 ih

/-- Counterexample to claim C1 as stated: from a fresh manager, a
successful connect followed by `startScanning` yields a reachable state
whose Connection State is `scanning`, not `connected`; a heart-rate
notification delivered there still emits a vitals packet on the event bus,
because `handleCharacteristicValue` never checks the Connection State. -/
theorem C1_counterexample :
    Reachable cexState ∧
    cexState.connectionState = ConnectionState.scanning ∧
    ¬ cexState.connectionState = ConnectionState.connected ∧
    (managerStep cexState
      (.notify HEART_RATE_MEASUREMENT_UUID (some [0x00, 0x48]) 0)).2 =
      [ManagerEvent.healthDataReceived ⟨72, 0, 0, 0, 0, 0, 0, "bracelet-1"⟩] := by
  refine ⟨?_, by decide, by decide, by decide⟩
  exact Reachable.step _ .startScan
    (Reachable.step _ (.connect "bracelet-1" true) Reachable.init)

/-- Claim C1, amended: in every reachable manager state, a vitals packet
can be emitted only while the notification listener installed by a
successful connect is registered and the transport link is up — hence only
while a Connected Device snapshot is present. The Connection State itself
need not be `connected` at emission time (see the counterexample, where it
is `scanning`), so the invariant holds for the live link and device
snapshot, not for the Connection State enumeration. -/
theorem C1_emission_requires_live_connection (s : ManagerState)
    (a : ManagerAction) (p : HealthDataPacket) (hs : Reachable s)
    (hemit : ManagerEvent.healthDataReceived p ∈ (managerStep s a).2) :
    s.charListener = true ∧ s.transportConnected = true ∧
    s.connectedDevice.isSome = true := by
  have hinv : transportDeviceInv s := reachable_transportDeviceInv s hs
  cases a with
  | startScan =>
    exact absurd hemit ((healthData_not_in_scan_ops s true p).1)
  | stopScan ok =>
    exact absurd hemit ((healthData_not_in_scan_ops s ok p).2)
  | connect d ok =>
    exact absurd hemit (healthData_not_in_connect s d ok p)
  | disconnect ok =>
    exact absurd hemit (healthData_not_in_disconnect s ok p)
  | reconnect outs =>
    exact absurd hemit (healthData_not_in_reconnect outs s p)
  | notify u v t =>
    by_cases hg : (s.charListener && s.transportConnected) = true
    · obtain ⟨h1, h2⟩ := Bool.and_eq_true_iff.mp hg
      exact ⟨h1, h2, hinv h2⟩
    · exfalso
      unfold managerStep notification at hemit
      simp only [hg, Bool.false_eq_true, if_false] at hemit
      simp at hemit

/-- Witness for C1 (amended): the emission step of the counterexample state
indeed happens with the listener registered, the transport up and a device
snapshot present. -/
theorem C1_amended_witness :
    cexState.charListener = true ∧ cexState.transportConnected = true ∧
    cexState.connectedDevice.isSome = true :=
  C1_emission_requires_live_connection cexState
    (.notify HEART_RATE_MEASUREMENT_UUID (some [0x00, 0x48]) 0)
    ⟨72, 0, 0, 0, 0, 0, 0, "bracelet-1"⟩
    (Reachable.step _ .startScan
      (Reachable.step _ (.connect "bracelet-1" true) Reachable.init))
    (by decide)
